import Mathlib

/-!
Verification development for the SBC option-valuation pipeline
(`src/option_valuation.py`).

The Python source is shallowly embedded as follows:

* Python `datetime.date` values become a `Date` structure with explicit
  calendar validity; day differences are computed through a
  days-from-civil (rata-die) function implementing the proleptic
  Gregorian calendar, with rata die 0 = 1970-01-01 (a Thursday).
* Python floats are idealized as exact numbers: the date arithmetic in
  `calculate_years_to_maturity` is carried out in `ℚ` (all quantities
  there are exact rationals), and the statistics pipeline is carried out
  in `ℝ`.  `round(x)` / `round(x, 2)` (Python rounds halves to even) are
  modelled by `pyRound` / `pyRound2`.
* pandas missing values (`NaN` produced by resampling over empty bins,
  by `shift(1)`, or by a standard deviation over fewer than two points)
  are modelled as `Option` with `none` for `NaN`; `dropna` is
  `List.filterMap id`.  `np.log` applied to a non-positive ratio (which
  yields a non-finite float that `dropna` removes or that poisons the
  downstream statistics) is modelled as `none`; series with a zero price
  are outside the model and theorems assume positive prices.
* A Python function call that can raise becomes `Except PyErr`; the
  `PyErr` constructors correspond one-to-one to the `raise` sites in the
  source (plus the exceptions Python itself raises in `main`:
  `list.index` on a missing element, the `None / 100` type error, and
  `datetime.replace` on an invalid day).
-/

/-- Exceptions that the script can raise.  `noData` and `invalidFrequency`
are the two explicit `raise ValueError` sites in `calculate_volatility`;
`indexNotFound` is the `ValueError` raised by `list.index` in the yield
interpolation loop of `main`; `keyNotFound` is the `KeyError` raised by
`main` when the required maturity label is missing, carrying the list of
available maturities; `typeError` is the `TypeError` raised by
`None / 100`; `dateValueError` is the `ValueError` raised by
`datetime.replace` for a day that does not exist in the target month. -/
inductive PyErr where
  | noData
  | invalidFrequency
  | indexNotFound
  | keyNotFound (available : List ℕ)
  | typeError
  | dateValueError
  deriving DecidableEq, Repr

/-- Python `round` on an exact rational: round to the nearest integer,
halves to even (the IEEE-754 / Python 3 behaviour, idealized to exact
arithmetic). -/
def pyRound (q : ℚ) : ℤ :=
  if Int.fract q = 1/2 then
    (if 2 ∣ ⌊q⌋ then ⌊q⌋ else ⌊q⌋ + 1)
  else ⌊q + 1/2⌋

open Classical in
/-- Python `round` on a real number, halves to even (see `pyRound`). -/
noncomputable def pyRoundR (x : ℝ) : ℤ :=
  if Int.fract x = 1/2 then
    (if 2 ∣ ⌊x⌋ then ⌊x⌋ else ⌊x⌋ + 1)
  else ⌊x + 1/2⌋

/-- Python `round(x, 2)`: round to two decimal places, halves to even. -/
noncomputable def pyRound2 (x : ℝ) : ℝ := (pyRoundR (x * 100) : ℝ) / 100

/-- Gregorian calendar date, mirroring Python `datetime` components. -/
structure Date where
  year : ℤ
  month : ℕ
  day : ℕ
  deriving DecidableEq, Repr

/-- Gregorian leap-year rule. -/
def isLeap (y : ℤ) : Bool := y % 4 = 0 && (y % 100 != 0 || y % 400 = 0)

/-- Number of days in a month of a given year. -/
def daysInMonth (y : ℤ) (m : ℕ) : ℕ :=
  if m = 2 then (if isLeap y then 29 else 28)
  else if m = 4 ∨ m = 6 ∨ m = 9 ∨ m = 11 then 30
  else 31

/-- Calendar validity of a `Date`, as enforced by Python `datetime`. -/
def Date.valid (d : Date) : Prop :=
  1 ≤ d.month ∧ d.month ≤ 12 ∧ 1 ≤ d.day ∧ d.day ≤ daysInMonth d.year d.month

instance (d : Date) : Decidable d.valid := by
  unfold Date.valid; infer_instance

/-- Days since 1970-01-01 of a civil date (proleptic Gregorian),
the standard days-from-civil computation.  This models the day counts
that Python `datetime` subtraction produces. -/
def Date.toRD (dt : Date) : ℤ :=
  let y : ℤ := if dt.month ≤ 2 then dt.year - 1 else dt.year
  let era : ℤ := Int.fdiv y 400
  let yoe : ℤ := y - era * 400
  let mp : ℕ := if 2 < dt.month then dt.month - 3 else dt.month + 9
  let doy : ℤ := ((153 * mp + 2) / 5 + dt.day - 1 : ℕ)
  let doe : ℤ := yoe * 365 + Int.fdiv yoe 4 - Int.fdiv yoe 100 + doy
  era * 146097 + doe - 719468

/-- Day count `(b - a).days` of Python `datetime` subtraction. -/
def daysBetween (a b : Date) : ℤ := b.toRD - a.toRD

/-- The function `calculate_years_to_maturity` of the source: average of
the two day-count-based year fractions, rounded to the nearest integer
(Python `round`, exact arithmetic in `ℚ`), then `int(...)`. -/
def calculate_years_to_maturity (valuation expiration vestingEnd : Date) : ℤ :=
  let ytmValuationExpiration : ℚ := (daysBetween valuation expiration : ℚ) / 365
  let ytmValuationVesting : ℚ := (daysBetween valuation vestingEnd : ℚ) / 365
  pyRound ((ytmValuationExpiration + ytmValuationVesting) / 2)

/-- Python `datetime.replace(year=newYear)` keeping month and day: raises
`ValueError` when the day does not exist in that month of the new year
(February 29 in a non-leap year). -/
def pyReplaceYear (d : Date) (newYear : ℤ) : Except PyErr Date :=
  if d.day ≤ daysInMonth newYear d.month then
    .ok { year := newYear, month := d.month, day := d.day }
  else .error .dateValueError

/-- The historical-window computation of `main` (lines 92-94): the
start date is the valuation date with its year decreased by the computed
years-to-maturity, the end date is the valuation date itself.  This step
runs before any per-ticker volatility computation; if `replace` raises,
`main` propagates the exception and no volatility is computed. -/
def histWindow (valuation expiration vestingEnd : Date) : Except PyErr (Date × Date) :=
  let ytm := calculate_years_to_maturity valuation expiration vestingEnd
  (pyReplaceYear valuation (valuation.year - ytm)).map (fun s => (s, valuation))

/-! ## Volatility estimator (`calculate_volatility`, source lines 9-31)

pandas `resample('W-FRI').last()` / `resample('M').last()` produce one
slot per weekly (Friday-anchored) or calendar-month bin between the bins
of the first and the last observation; bins containing no observation
hold `NaN` (`none`).  `np.log(prices / prices.shift(1)).dropna()` maps a
pair of adjacent slots to a log return, is `NaN` whenever either slot is
(the leading slot of `shift(1)` always is), and `dropna` removes the
`NaN` entries.  `Series.std()` is the Bessel-corrected (ddof = 1) sample
standard deviation, `NaN` for fewer than two values. -/

/-- Rata-die day of the Friday on or after the given day (rata die 1 =
1970-01-02 was a Friday).  pandas assigns an observation to the
Friday-anchored week bin labelled by this Friday. -/
def friOnOrAfter (rd : ℤ) : ℤ := rd + (1 - rd) % 7

/-- Linear month index; pandas assigns an observation to its calendar
month bin. -/
def monthIndex (d : Date) : ℤ := 12 * d.year + d.month

/-- Bin labels generated by the pandas resampler: regularly spaced (by
`step`) from the first observation's bin label to the last's. -/
def allBins (keys : List ℤ) (step : ℤ) : List ℤ :=
  match keys.head?, keys.getLast? with
  | some a, some b => (List.range (((b - a) / step).toNat + 1)).map (fun i => a + step * (i : ℤ))
  | _, _ => []

/-- Last observation carrying a given bin key, if any (`last()` of a
resampling group; `none` models the `NaN` of an empty bin). -/
def lastInBin (xs : List (ℤ × ℝ)) (k : ℤ) : Option ℝ :=
  ((xs.filter (fun p => p.1 = k)).map Prod.snd).getLast?

/-- The resampled series as pandas produces it: one slot per bin in the
covered range, `none` for empty bins. -/
def resampleLast (xs : List (ℤ × ℝ)) (step : ℤ) : List (Option ℝ) :=
  (allBins (xs.map Prod.fst) step).map (lastInBin xs)

/-- Price series keyed by Friday-anchored week bin. -/
def keyedWeekly (xs : List (Date × ℝ)) : List (ℤ × ℝ) :=
  xs.map (fun p => (friOnOrAfter p.1.toRD, p.2))

/-- Price series keyed by calendar month bin. -/
def keyedMonthly (xs : List (Date × ℝ)) : List (ℤ × ℝ) :=
  xs.map (fun p => (monthIndex p.1, p.2))

/-- Resampled price series selected by the `frequency` branch of
`calculate_volatility`: `daily` no resampling, `weekly` last observation
per Friday-anchored week, `monthly` last observation per calendar month
(empty branch for the unrecognized-frequency case, unreachable there). -/
def codeResampled (frequency : String) (xs : List (Date × ℝ)) : List (Option ℝ) :=
  if frequency = "daily" then xs.map (fun p => some p.2)
  else if frequency = "weekly" then resampleLast (keyedWeekly xs) 7
  else if frequency = "monthly" then resampleLast (keyedMonthly xs) 1
  else []

/-- Squared annualization factor selected by the `frequency` branch:
`annual_factor` in the source is its square root. -/
def annualFactorSq (frequency : String) : ℕ :=
  if frequency = "daily" then 252
  else if frequency = "weekly" then 52
  else if frequency = "monthly" then 12
  else 0

open Classical in
/-- One entry of `np.log(prices / prices.shift(1))`: the log of the
current slot over the previous slot, `NaN` (`none`) when either slot is
missing.  `np.log` of a non-positive ratio yields a non-finite float,
modelled as `none`; a zero price (ratio exactly zero) is outside the
model. -/
noncomputable def retOp (a b : Option ℝ) : Option ℝ :=
  match a, b with
  | some a0, some b0 => if 0 < b0 / a0 then some (Real.log (b0 / a0)) else none
  | _, _ => none

/-- The log returns `np.log(prices / prices.shift(1))` over the slotted
series: entry `i` relates slot `i` to slot `i-1`; the leading entry is
always `NaN` (`shift(1)` has nothing before the first slot). -/
noncomputable def logReturnsRaw (l : List (Option ℝ)) : List (Option ℝ) :=
  none :: l.zipWith retOp l.tail

/-- pandas `dropna`. -/
def dropna (l : List (Option ℝ)) : List ℝ := l.filterMap id

/-- pandas `Series.std()`: Bessel-corrected sample standard deviation,
`NaN` (`none`) for fewer than two values. -/
noncomputable def sampleStd (l : List ℝ) : Option ℝ :=
  if l.length < 2 then none
  else some (Real.sqrt
    ((l.map (fun x => (x - l.sum / (l.length : ℝ)) ^ 2)).sum / ((l.length : ℝ) - 1)))

/-- Tail of `calculate_volatility` after resampling: standard deviation
of the dropna'd log returns, annualized by `sqrt(periods_per_year)`,
expressed as a percentage and rounded to two decimals.  A `NaN` standard
deviation propagates through `*` and `round`. -/
noncomputable def annualized (prices : List (Option ℝ)) (ppy : ℕ) : Option ℝ :=
  (sampleStd (dropna (logReturnsRaw prices))).map
    (fun s => pyRound2 (s * Real.sqrt (ppy : ℝ) * 100))

/-- The function `calculate_volatility` of the source.  The price series
is the externally fetched data (date, adjusted close); an empty series
raises `ValueError` (`noData`), an unrecognized frequency raises
`ValueError` (`invalidFrequency`); otherwise the function returns the
annualized volatility percentage, which is `NaN` (`none`) when fewer
than two log returns survive `dropna`. -/
noncomputable def calculate_volatility (xs : List (Date × ℝ)) (frequency : String) :
    Except PyErr (Option ℝ) :=
  if xs.isEmpty then .error .noData
  else if frequency = "daily" ∨ frequency = "weekly" ∨ frequency = "monthly" then
    .ok (annualized (codeResampled frequency xs) (annualFactorSq frequency))
  else .error .invalidFrequency

/-! Spec-side definitions for claim C1, following the claim's wording:
the resampled series keeps one (real) value per bin that actually
contains an observation — the last one — and log returns are taken over
consecutive entries of that series. -/

/-- Modelled from the claim's wording: last observation per bin, bins
with no observation contributing nothing. -/
def specLastPerBin (xs : List (ℤ × ℝ)) : List ℝ :=
  ((xs.map Prod.fst).dedup).filterMap (lastInBin xs)

/-- Modelled from the claim's wording: the resampled series (daily
unchanged, weekly last per Friday-anchored week, monthly last per
calendar month). -/
def specResampled (frequency : String) (xs : List (Date × ℝ)) : List ℝ :=
  if frequency = "daily" then xs.map Prod.snd
  else if frequency = "weekly" then specLastPerBin (keyedWeekly xs)
  else if frequency = "monthly" then specLastPerBin (keyedMonthly xs)
  else []

/-- Modelled from the claim's wording: log returns `ln(P_t / P_{t-1})`
of consecutive resampled observations (the first undefined value being
dropped). -/
noncomputable def specLogReturns (l : List ℝ) : List ℝ :=
  l.zipWith (fun a b => Real.log (b / a)) l.tail

/-- Modelled from the claim's wording: Bessel-corrected sample standard
deviation of the log returns, times `sqrt(periods_per_year)`, times 100,
rounded to two decimals (undefined — `none` — when fewer than two
returns exist). -/
noncomputable def specVolatility (frequency : String) (xs : List (Date × ℝ)) : Option ℝ :=
  (sampleStd (specLogReturns (specResampled frequency xs))).map
    (fun s => pyRound2 (s * Real.sqrt (annualFactorSq frequency : ℝ) * 100))

/-- Every weekly (resp. monthly) bin between the first and the last
observation contains at least one observation, so that resampling
introduces no `NaN` slots. -/
def noEmptyBins (frequency : String) (xs : List (Date × ℝ)) : Prop :=
  if frequency = "weekly" then
    allBins ((keyedWeekly xs).map Prod.fst) 7 = ((keyedWeekly xs).map Prod.fst).dedup
  else if frequency = "monthly" then
    allBins ((keyedMonthly xs).map Prod.fst) 1 = ((keyedMonthly xs).map Prod.fst).dedup
  else True

/-- Concrete gap-free daily series for the C1 witness. -/
noncomputable def c1WitnessSeries : List (Date × ℝ) :=
  [(⟨2024,1,1⟩, 1), (⟨2024,1,2⟩, Real.exp 1), (⟨2024,1,3⟩, Real.exp 2)]

/-- Concrete weekly series with an empty week (of 2024-01-19) between
observed Fridays 2024-01-05, 2024-01-12, 2024-01-26 and 2024-02-02, used
to refute claim C1 as stated. -/
noncomputable def c1CexSeries : List (Date × ℝ) :=
  [(⟨2024,1,5⟩, 1), (⟨2024,1,12⟩, Real.exp 1),
   (⟨2024,1,26⟩, Real.exp 3), (⟨2024,2,2⟩, Real.exp 4)]

/-! ## Yield curve construction and lookup (`main`, source lines 126-192)

The four reference instruments have fixed maturities 1, 5, 10 and 30
years (`known_maturities` is built from `treasury_tickers` regardless of
whether the corresponding fetch succeeded); `max_maturity` is therefore
always 30 and `intermediate_maturities` is always the integers of
`[1, 30]` outside `{1, 5, 10, 30}`.  A failed fetch appends
`Yield = None` and only removes the point from `known_yields`. -/

open Classical in
/-- `np.interp` over sorted strictly-increasing sample points: clamps
below the first and above the last point, linear in between. -/
noncomputable def npInterp : List (ℝ × ℝ) → ℝ → ℝ
  | [], _ => 0
  | [(_, y1)], _ => y1
  | (x1, y1) :: (x2, y2) :: rest, x =>
    if x ≤ x1 then y1
    else if x ≤ x2 then y1 + (y2 - y1) * (x - x1) / (x2 - x1)
    else npInterp ((x2, y2) :: rest) x

/-- The fixed maturities of `treasury_tickers`. -/
def knownMaturities : List ℕ := [1, 5, 10, 30]

/-- `intermediate_maturities` of the source. -/
def intermediateMaturities : List ℕ :=
  (List.range' 1 30).filter (fun i => i ∉ knownMaturities)

/-- The yield-curve construction of `main` (lines 147-172), given the
fetched yields of the four reference instruments (`none` for a failed
fetch).  When no yield is present, every maturity of `[1, 30]` gets an
absent value.  Otherwise, for each maturity of `[1, 30]` in order: a
present fixed-instrument maturity carries its fetched yield through
unrounded; a maturity in `intermediate_maturities` gets the `np.interp`
value over the present points, rounded to two decimals; and a
fixed-instrument maturity whose yield is absent makes
`intermediate_maturities.index(maturity)` raise `ValueError`
(`indexNotFound`), aborting the construction. -/
noncomputable def buildCurve (y1 y5 y10 y30 : Option ℝ) :
    Except PyErr (List (ℕ × Option ℝ)) :=
  let knownYields : List (ℕ × ℝ) :=
    ([(1, y1), (5, y5), (10, y10), (30, y30)] : List (ℕ × Option ℝ)).filterMap
      (fun p => p.2.map (fun v => (p.1, v)))
  if knownYields.isEmpty then
    .ok ((List.range' 1 30).map (fun m => (m, none)))
  else
    (List.range' 1 30).mapM (fun m =>
      match knownYields.find? (fun p => p.1 = m) with
      | some p => .ok (m, some p.2)
      | none =>
        if m ∈ intermediateMaturities then
          .ok (m, some (pyRound2
            (npInterp (knownYields.map (fun p => ((p.1 : ℝ), p.2))) (m : ℝ))))
        else .error .indexNotFound)

/-- The risk-free-rate lookup of `main` (lines 184-191): if the label
`{ytm}-year` is not in the table's index, raise `KeyError` listing the
available maturities; otherwise take the stored value and divide by
100 — which raises `TypeError` when the stored value is `None`. -/
noncomputable def riskFreeLookup (curve : List (ℕ × Option ℝ)) (ytm : ℤ) : Except PyErr ℝ :=
  match curve.find? (fun p => (p.1 : ℤ) = ytm) with
  | none => .error (.keyNotFound (curve.map Prod.fst))
  | some (_, none) => .error .typeError
  | some (_, some v) => .ok (v / 100)

open Classical in
/-- Modelled from the spec's wording for claim C2: standard
piecewise-linear interpolation between the two bracketing known points
(all four present). -/
noncomputable def specLerp (v1 v5 v10 v30 : ℝ) (m : ℕ) : ℝ :=
  if m ≤ 5 then v1 + (v5 - v1) * ((m : ℝ) - 1) / 4
  else if m ≤ 10 then v5 + (v10 - v5) * ((m : ℝ) - 5) / 5
  else v10 + (v30 - v10) * ((m : ℝ) - 10) / 20

/-- Modelled from the spec's wording for claim C2: known maturities carry
their yields through exactly as given (unrounded); every other maturity
gets the bracketing linear interpolation rounded to two decimals. -/
noncomputable def specCurveVal (v1 v5 v10 v30 : ℝ) (m : ℕ) : Option ℝ :=
  if m = 1 then some v1
  else if m = 5 then some v5
  else if m = 10 then some v10
  else if m = 30 then some v30
  else some (pyRound2 (specLerp v1 v5 v10 v30 m))

/-! ## Black-Scholes pricer (`black_scholes`, source lines 49-53) and
per-ticker aggregation (`main`, lines 98-122 and 195) -/

/-- Standard normal cumulative distribution function. -/
noncomputable def stdNormCdf (x : ℝ) : ℝ :=
  ∫ t in Set.Iic x, Real.exp (-(t ^ 2) / 2) / Real.sqrt (2 * Real.pi)

open Classical in
/-- The function `black_scholes` of the source.  It contains no `raise`
and performs no validation, and the numpy float operations raise no
exception for any input: the call always returns.  Inputs that make an
intermediate non-finite (`sigma * sqrt(T) = 0`, a division by zero;
`T < 0`, whose numpy square root is `nan` and makes the product zero in
this model; or `S / K ≤ 0`, whose log is non-finite) trigger IEEE
non-finite propagation that the real-number model does not represent;
those results are abstracted as `none`.  For every other input the
returned value is the Black-Scholes formula of the source. -/
noncomputable def black_scholes (S K T r sigma : ℝ) : Except PyErr (Option ℝ) :=
  .ok (if sigma * Real.sqrt T = 0 ∨ S / K ≤ 0 then none
    else some (
      let d1 := (Real.log (S / K) + (r + 0.5 * sigma ^ 2) * T) / (sigma * Real.sqrt T)
      let d2 := d1 - sigma * Real.sqrt T
      S * stdNormCdf d1 - K * Real.exp (-r * T) * stdNormCdf d2))

/-- The per-ticker loop of `main` (lines 98-106): each ticker's fetch
and volatility computation either returns a (possibly `NaN`) percentage
or raises; a raising ticker is caught, printed, and contributes no row.
The returned list is the `volatilities` table, the only per-ticker data
in the result. -/
def volLoop : List (String × Except PyErr (Option ℝ)) → List (String × Option ℝ)
  | [] => []
  | (t, .ok v) :: rest => (t, v) :: volLoop rest
  | (_, .error _) :: rest => volLoop rest

/-- The failure messages printed by the loop (lines 104-105): console
output only, not part of any result table. -/
def volLoopLog : List (String × Except PyErr (Option ℝ)) → List (String × PyErr)
  | [] => []
  | (_, .ok _) :: rest => volLoopLog rest
  | (t, .error e) :: rest => (t, e) :: volLoopLog rest

/-- pandas mean with `skipna`: arithmetic mean of the present values,
`NaN` for an all-missing or empty input. -/
noncomputable def pdMean (l : List (Option ℝ)) : Option ℝ :=
  let vs := l.filterMap id
  if vs.isEmpty then none else some (vs.sum / (vs.length : ℝ))

/-- `average_volatility` of `main` (line 115): the mean of the single
volatility column divided by 100 (`NaN` when no ticker succeeded; a
`NaN` mean stays `NaN` after the division). -/
noncomputable def averageVolatility (rows : List (String × Option ℝ)) : Option ℝ :=
  (pdMean (rows.map Prod.snd)).map (fun x => x / 100)

/-- The pricer call of `main` (line 195) with the possibly-`NaN` average
volatility: a `NaN` volatility propagates to a `NaN` option value and
raises nothing. -/
noncomputable def priceWithAverage (S K T r : ℝ) : Option ℝ → Except PyErr (Option ℝ)
  | none => .ok none
  | some sigma => black_scholes S K T r sigma

/-- Claim C3: for valid calendar dates with expiration and vesting end on
or after the valuation date, `calculate_years_to_maturity` returns
`round((A + B) / 2)` where `A` and `B` are the day counts to expiration
and to vesting end divided by 365; equivalently `round((d1 + d2) / 730)`
over the raw day counts. -/
theorem c3_years_to_maturity (v e ve : Date)
    (hv : v.valid) (he : e.valid) (hve : ve.valid)
    (h1 : v.toRD ≤ e.toRD) (h2 : v.toRD ≤ ve.toRD) :
    calculate_years_to_maturity v e ve =
      pyRound (((daysBetween v e : ℚ) / 365 + (daysBetween v ve : ℚ) / 365) / 2) ∧
    calculate_years_to_maturity v e ve =
      pyRound (((daysBetween v e : ℚ) + (daysBetween v ve : ℚ)) / 730) := by
  refine ⟨rfl, ?_⟩
  show pyRound (((daysBetween v e : ℚ) / 365 + (daysBetween v ve : ℚ) / 365) / 2) = _
  rw [show ((daysBetween v e : ℚ) / 365 + (daysBetween v ve : ℚ) / 365) / 2 =
    ((daysBetween v e : ℚ) + (daysBetween v ve : ℚ)) / 730 from by ring]

/-- Witness for C3 at the worked example of the specification:
valuation 2020-01-01, expiration 2025-01-01, vesting end 2023-01-01 give
day counts 1827 and 1096 and a rounded maturity of 4 years. -/
theorem c3_years_to_maturity_witness :
    daysBetween ⟨2020,1,1⟩ ⟨2025,1,1⟩ = 1827 ∧
    daysBetween ⟨2020,1,1⟩ ⟨2023,1,1⟩ = 1096 ∧
    calculate_years_to_maturity ⟨2020,1,1⟩ ⟨2025,1,1⟩ ⟨2023,1,1⟩ = 4 := by
  refine ⟨by decide, by decide, ?_⟩
  have h := (c3_years_to_maturity ⟨2020,1,1⟩ ⟨2025,1,1⟩ ⟨2023,1,1⟩
    (by decide) (by decide) (by decide) (by decide) (by decide)).2
  rw [h, show daysBetween ⟨2020,1,1⟩ ⟨2025,1,1⟩ = 1827 from by decide,
    show daysBetween ⟨2020,1,1⟩ ⟨2023,1,1⟩ = 1096 from by decide]
  rw [pyRound, if_neg, show ((1827 : ℤ) : ℚ) + ((1096 : ℤ) : ℚ) = 2923 by norm_num,
    show (2923/730 : ℚ) + 1/2 = 3288/730 by norm_num]
  · norm_num
  · rw [Int.fract]
    norm_num

/-- Claim C10: the historical lookback window is the valuation date with
its year decreased by the computed years-to-maturity, up to the valuation
date itself (lookback length = years-to-maturity); and when the valuation
date is February 29 and the shifted year is not a leap year, the window
derivation raises before any volatility is computed. -/
theorem c10_hist_window (v e ve : Date)
    (hv : v.valid) (he : e.valid) (hve : ve.valid) :
    (v.day ≤ daysInMonth (v.year - calculate_years_to_maturity v e ve) v.month →
      histWindow v e ve =
        .ok (⟨v.year - calculate_years_to_maturity v e ve, v.month, v.day⟩, v)) ∧
    (v.month = 2 → v.day = 29 →
      ¬ isLeap (v.year - calculate_years_to_maturity v e ve) →
      histWindow v e ve = .error .dateValueError) := by
  constructor
  · intro h
    rw [histWindow, pyReplaceYear, if_pos h]
    rfl
  · intro hm hd hl
    rw [histWindow, pyReplaceYear, if_neg]
    · rfl
    · rw [hm, hd, daysInMonth]
      simp only [if_pos rfl]
      rw [if_neg hl]
      simp

/-- Witness for C10: valuation 2024-02-29 with expiration and vesting end
2025-02-28 gives a one-year maturity; 2023 is not a leap year, so the
window computation fails with the `datetime.replace` `ValueError`. -/
theorem c10_hist_window_witness :
    calculate_years_to_maturity ⟨2024,2,29⟩ ⟨2025,2,28⟩ ⟨2025,2,28⟩ = 1 ∧
    histWindow ⟨2024,2,29⟩ ⟨2025,2,28⟩ ⟨2025,2,28⟩ = .error .dateValueError := by
  have hy : calculate_years_to_maturity ⟨2024,2,29⟩ ⟨2025,2,28⟩ ⟨2025,2,28⟩ = 1 := by
    rw [calculate_years_to_maturity,
      show daysBetween ⟨2024,2,29⟩ ⟨2025,2,28⟩ = 365 from by decide]
    rw [show ((365 : ℤ) : ℚ) / 365 = 1 by norm_num]
    rw [show ((1 : ℚ) + 1) / 2 = 1 by norm_num]
    rw [pyRound, if_neg]
    · norm_num
    · rw [Int.fract]
      norm_num
  refine ⟨hy, ?_⟩
  have h := (c10_hist_window ⟨2024,2,29⟩ ⟨2025,2,28⟩ ⟨2025,2,28⟩
    (by decide) (by decide) (by decide)).2 rfl rfl
  rw [hy] at h
  exact h (by decide)

theorem retOp_some_some (a b : ℝ) :
    retOp (some a) (some b) = if 0 < b / a then some (Real.log (b / a)) else none := rfl

theorem retOp_none_left (b : Option ℝ) : retOp none b = none := by
  cases b <;> rfl

theorem retOp_none_right (a : Option ℝ) : retOp a none = none := by
  cases a <;> rfl

/-- A bin key drawn from the series has a last observation. -/
theorem lastInBin_isSome (xs : List (ℤ × ℝ)) (k : ℤ) (h : k ∈ xs.map Prod.fst) :
    (lastInBin xs k).isSome := by
  obtain ⟨p, hp, hk⟩ := List.mem_map.mp h
  have hmem : p ∈ xs.filter (fun q => q.1 = k) :=
    List.mem_filter.mpr ⟨hp, by simp [hk]⟩
  rw [lastInBin, List.getLast?_isSome]
  simp only [ne_eq, List.map_eq_nil_iff]
  exact List.ne_nil_of_mem hmem

/-- A value obtained from `lastInBin` is a value of the series. -/
theorem lastInBin_mem (xs : List (ℤ × ℝ)) (k : ℤ) (v : ℝ) (h : lastInBin xs k = some v) :
    v ∈ xs.map Prod.snd := by
  rw [lastInBin] at h
  obtain ⟨hne, heq⟩ := List.mem_getLast?_eq_getLast (x := v) (by rw [h]; rfl)
  have hv : v ∈ (xs.filter (fun q => q.1 = k)).map Prod.snd := heq ▸ List.getLast_mem hne
  obtain ⟨p, hp, hpv⟩ := List.mem_map.mp hv
  exact List.mem_map.mpr ⟨p, List.filter_subset' xs hp, hpv⟩

/-- Mapping a function that is `some` on every element equals mapping
`some` over the extracted values. -/
theorem map_eq_map_some_filterMap {α β : Type} (f : α → Option β) :
    ∀ (l : List α), (∀ a ∈ l, (f a).isSome) → l.map f = (l.filterMap f).map some := by
  intro l
  induction l with
  | nil => intro _; rfl
  | cons a t ih =>
    intro h
    obtain ⟨b, hb⟩ := Option.isSome_iff_exists.mp (h a (List.mem_cons_self a t))
    rw [List.map_cons, hb, List.filterMap_cons_some hb, List.map_cons,
      ih (fun x hx => h x (List.mem_cons_of_mem a hx))]

/-- When every bin in the covered range has an observation, the pandas
resampled series is the spec-side resampled series with every slot
present. -/
theorem resampleLast_eq_of_noGaps (ks : List (ℤ × ℝ)) (step : ℤ)
    (h : allBins (ks.map Prod.fst) step = (ks.map Prod.fst).dedup) :
    resampleLast ks step = (specLastPerBin ks).map some := by
  rw [resampleLast, h, specLastPerBin]
  exact map_eq_map_some_filterMap _ _
    (fun k hk => lastInBin_isSome ks k (List.dedup_subset _ hk))

/-- Under the no-empty-bins hypothesis the code's resampled series is
the spec-side one with every slot present. -/
theorem codeResampled_eq (frequency : String) (xs : List (Date × ℝ))
    (hf : frequency = "daily" ∨ frequency = "weekly" ∨ frequency = "monthly")
    (hbins : noEmptyBins frequency xs) :
    codeResampled frequency xs = (specResampled frequency xs).map some := by
  rcases hf with h | h | h <;> subst h
  · simp [codeResampled, specResampled, List.map_map, Function.comp]
  · rw [noEmptyBins] at hbins
    simp only [reduceIte, String.reduceEq] at hbins ⊢
    rw [codeResampled, specResampled]
    simp only [String.reduceEq, reduceIte]
    exact resampleLast_eq_of_noGaps _ _ hbins
  · rw [noEmptyBins] at hbins
    simp only [reduceIte, String.reduceEq] at hbins ⊢
    rw [codeResampled, specResampled]
    simp only [String.reduceEq, reduceIte]
    exact resampleLast_eq_of_noGaps _ _ hbins

/-- Values of the spec-side resampled series come from the price series. -/
theorem specResampled_pos (frequency : String) (xs : List (Date × ℝ))
    (hpos : ∀ p ∈ xs, 0 < p.2) :
    ∀ v ∈ specResampled frequency xs, 0 < v := by
  have hbin : ∀ (ks : List (ℤ × ℝ)), (∀ p ∈ ks, 0 < p.2) →
      ∀ v ∈ specLastPerBin ks, 0 < v := by
    intro ks hks v hv
    obtain ⟨k, _, hvk⟩ := List.mem_filterMap.mp hv
    obtain ⟨p, hp, hpv⟩ := List.mem_map.mp (lastInBin_mem ks k v hvk)
    exact hpv ▸ hks p hp
  intro v hv
  rw [specResampled] at hv
  split_ifs at hv
  · obtain ⟨p, hp, hpv⟩ := List.mem_map.mp hv
    exact hpv ▸ hpos p hp
  · refine hbin _ ?_ v hv
    intro p hp
    obtain ⟨q, hq, hqp⟩ := List.mem_map.mp hp
    exact hqp ▸ hpos q hq
  · refine hbin _ ?_ v hv
    intro p hp
    obtain ⟨q, hq, hqp⟩ := List.mem_map.mp hp
    exact hqp ▸ hpos q hq
  · cases hv

/-- Over an all-present slot series with positive values, the dropna'd
pandas log returns are exactly the spec-side log returns. -/
theorem dropna_logReturns (l : List ℝ) (h : ∀ v ∈ l, 0 < v) :
    dropna (logReturnsRaw (l.map some)) = specLogReturns l := by
  rw [logReturnsRaw, dropna, List.filterMap_cons_none rfl, specLogReturns]
  induction l with
  | nil => rfl
  | cons a t ih =>
    cases t with
    | nil => rfl
    | cons b t2 =>
      have hb : (0:ℝ) < b / a :=
        div_pos (h b (by simp)) (h a (by simp))
      simp only [List.map_cons, List.tail_cons, List.zipWith_cons_cons]
      rw [retOp_some_some, if_pos hb]
      simp only [List.filterMap_cons, id_eq]
      have ih2 := ih (fun v hv => h v (List.mem_cons_of_mem a hv))
      simp only [List.map_cons, List.tail_cons] at ih2
      rw [ih2]

/-- Claim C1 as amended: for a price series with positive prices, a
recognized frequency, at least two resampled observations, and no empty
resampling bin between the first and the last observation, the
volatility estimate equals the Bessel-corrected sample standard
deviation of the log returns of the resampled series, annualized by
`sqrt(252)` / `sqrt(52)` / `sqrt(12)`, times 100, rounded to two
decimals.  (The no-empty-bins restriction is forced by the
counterexample: an empty weekly or monthly bin makes pandas insert a
`NaN` slot whose two adjacent log returns are dropped, which the
claim's formula does not do.) -/
theorem c1_volatility_amended (xs : List (Date × ℝ)) (frequency : String)
    (hf : frequency = "daily" ∨ frequency = "weekly" ∨ frequency = "monthly")
    (hpos : ∀ p ∈ xs, 0 < p.2)
    (hbins : noEmptyBins frequency xs)
    (hlen : 2 ≤ (specResampled frequency xs).length) :
    calculate_volatility xs frequency = .ok (specVolatility frequency xs) := by
  have hne : xs.isEmpty = false := by
    cases xs with
    | nil =>
      exfalso
      rw [specResampled] at hlen
      rcases hf with h | h | h <;> subst h <;>
        simp [specLastPerBin, keyedWeekly, keyedMonthly, allBins] at hlen
    | cons a t => rfl
  rw [calculate_volatility, hne]
  simp only [Bool.false_eq_true, if_false, if_pos hf]
  rw [codeResampled_eq frequency xs hf hbins]
  simp only [annualized]
  rw [dropna_logReturns _ (specResampled_pos frequency xs hpos)]
  rfl

/-- Witness for the amended C1 on a three-point daily series. -/
theorem c1_volatility_amended_witness :
    calculate_volatility c1WitnessSeries "daily" = .ok (specVolatility "daily" c1WitnessSeries) := by
  apply c1_volatility_amended
  · exact Or.inl rfl
  · intro p hp
    rw [c1WitnessSeries] at hp
    simp only [List.mem_cons, List.not_mem_nil, or_false] at hp
    rcases hp with h | h | h <;> subst h
    · exact one_pos
    · exact Real.exp_pos 1
    · exact Real.exp_pos 2
  · rw [noEmptyBins]
    simp
  · rw [specResampled]
    simp [c1WitnessSeries]

theorem floor_le_pyRoundR (x : ℝ) : ⌊x⌋ ≤ pyRoundR x := by
  rw [pyRoundR]
  split
  · split <;> omega
  · exact Int.floor_le_floor (by linarith)

theorem pyRound2_zero : pyRound2 0 = 0 := by
  rw [pyRound2, pyRoundR, zero_mul, if_neg]
  · norm_num
  · rw [Int.fract]
    norm_num

/-- Counterexample to claim C1 as stated: on a weekly series whose span
contains an empty week, the code drops the two log returns adjacent to
the empty `NaN` slot and here computes a volatility of exactly 0, while
the claim's formula (log returns of consecutive resampled observations)
gives a nonzero value. -/
theorem c1_volatility_counterexample :
    calculate_volatility c1CexSeries "weekly" = .ok (some 0) ∧
    specVolatility "weekly" c1CexSeries ≠ some 0 := by
  have hres : resampleLast (keyedWeekly c1CexSeries) 7 =
      [some 1, some (Real.exp 1), none, some (Real.exp 3), some (Real.exp 4)] := rfl
  have l1 : Real.log (Real.exp 1 / 1) = 1 := by
    norm_num [Real.log_exp]
  have l2 : Real.log (Real.exp 4 / Real.exp 3) = 1 := by
    rw [← Real.exp_sub]
    norm_num [Real.log_exp]
  have l3 : Real.log (Real.exp 3 / Real.exp 1) = 2 := by
    rw [← Real.exp_sub]
    norm_num [Real.log_exp]
  have hlog : logReturnsRaw [some 1, some (Real.exp 1), none,
      some (Real.exp 3), some (Real.exp 4)] = [none, some 1, none, none, some 1] := by
    rw [logReturnsRaw]
    simp only [List.tail_cons, List.zipWith_cons_cons, List.zipWith_nil_right,
      retOp_none_left, retOp_none_right, retOp_some_some]
    rw [if_pos (by positivity), if_pos (by positivity), l1, l2]
  have hstd : sampleStd [(1:ℝ), 1] = some 0 := by
    rw [sampleStd, if_neg (by norm_num)]
    congr 1
    rw [show ((([(1:ℝ), 1].map (fun x => (x - [(1:ℝ), 1].sum / ([(1:ℝ), 1].length : ℝ)) ^ 2)).sum) / (([(1:ℝ), 1].length : ℝ) - 1)) = 0 from by
      simp [List.sum_cons]]
    exact Real.sqrt_zero
  constructor
  · rw [calculate_volatility, show c1CexSeries.isEmpty = false from rfl]
    simp only [Bool.false_eq_true, if_false, true_or, or_true, if_true]
    rw [show codeResampled "weekly" c1CexSeries = resampleLast (keyedWeekly c1CexSeries) 7 from by
      rw [codeResampled]; simp]
    rw [hres]
    simp only [annualized, hlog]
    rw [show dropna [none, some (1:ℝ), none, none, some 1] = [1, 1] from rfl, hstd]
    simp only [Option.map_some']
    rw [zero_mul, zero_mul, pyRound2_zero]
  · have hspecres : specResampled "weekly" c1CexSeries = [1, Real.exp 1, Real.exp 3, Real.exp 4] := rfl
    have hspecret : specLogReturns [1, Real.exp 1, Real.exp 3, Real.exp 4] = [1, 2, 1] := by
      rw [specLogReturns]
      simp only [List.tail_cons, List.zipWith_cons_cons, List.zipWith_nil_right]
      rw [l1, l3, l2]
    have hstd2 : sampleStd [(1:ℝ), 2, 1] = some (Real.sqrt (1/3)) := by
      rw [sampleStd, if_neg (by norm_num)]
      congr 1
      rw [show ((([(1:ℝ), 2, 1].map (fun x => (x - [(1:ℝ), 2, 1].sum / ([(1:ℝ), 2, 1].length : ℝ)) ^ 2)).sum) / (([(1:ℝ), 2, 1].length : ℝ) - 1)) = 1/3 from by
        simp [List.sum_cons]
        norm_num]
    have hkey : (0:ℝ) < pyRound2 (Real.sqrt (1/3) * Real.sqrt 52 * 100) := by
      have hmul : Real.sqrt (1/3) * Real.sqrt 52 = Real.sqrt (52/3) := by
        rw [← Real.sqrt_mul (by norm_num)]
        norm_num
      have hge : (1:ℝ) ≤ Real.sqrt (52/3) := by
        rw [show (1:ℝ) = Real.sqrt 1 from by simp]
        exact Real.sqrt_le_sqrt (by norm_num)
      have harg : (10000:ℝ) ≤ Real.sqrt (1/3) * Real.sqrt 52 * 100 * 100 := by
        rw [hmul]
        nlinarith
      have hfl : (10000:ℤ) ≤ pyRoundR (Real.sqrt (1/3) * Real.sqrt 52 * 100 * 100) :=
        le_trans (Int.le_floor.mpr (by push_cast; linarith)) (floor_le_pyRoundR _)
      rw [pyRound2]
      have : (10000:ℝ) ≤ (pyRoundR (Real.sqrt (1/3) * Real.sqrt 52 * 100 * 100) : ℝ) := by
        exact_mod_cast hfl
      linarith
    rw [specVolatility, hspecres, hspecret, hstd2]
    simp only [Option.map_some', ne_eq, Option.some.injEq]
    intro heq
    rw [show annualFactorSq "weekly" = 52 from rfl] at heq
    rw [show ((52:ℕ):ℝ) = (52:ℝ) from by norm_num] at heq
    exact absurd heq (ne_of_gt hkey)

/-- mapM over `Except` of a function that succeeds pointwise. -/
theorem exceptMapM_ok {α β : Type} (f : α → Except PyErr β) (g : α → β) :
    ∀ (l : List α), (∀ a ∈ l, f a = .ok (g a)) → l.mapM f = .ok (l.map g) := by
  intro l
  induction l with
  | nil => intro _; rfl
  | cons a t ih =>
    intro h
    rw [List.mapM_cons, h a (List.mem_cons_self a t),
      ih (fun x hx => h x (List.mem_cons_of_mem a hx))]
    rfl

/-- First components of a successful `Except`-mapM whose step preserves
the input in the first component. -/
theorem exceptMapM_map_fst (f : ℕ → Except PyErr (ℕ × Option ℝ))
    (hf : ∀ a p, f a = .ok p → p.1 = a) :
    ∀ (l : List ℕ) (c : List (ℕ × Option ℝ)), l.mapM f = .ok c → c.map Prod.fst = l := by
  intro l
  induction l with
  | nil =>
    intro c hc
    rw [List.mapM_nil] at hc
    cases hc
    rfl
  | cons a t ih =>
    intro c hc
    rw [List.mapM_cons] at hc
    cases hfa : f a with
    | error e => rw [hfa] at hc; cases hc
    | ok p =>
      rw [hfa] at hc
      cases hmt : t.mapM f with
      | error e =>
        rw [hmt] at hc
        cases hc
      | ok cs =>
        rw [hmt] at hc
        cases hc
        rw [List.map_cons, hf a p hfa, ih cs hmt]

/-- With all four instrument yields present, the construction succeeds
and each maturity holds the spec-side value. -/
theorem buildCurve_all_some (v1 v5 v10 v30 : ℝ) :
    buildCurve (some v1) (some v5) (some v10) (some v30) =
      .ok ((List.range' 1 30).map (fun m => (m, specCurveVal v1 v5 v10 v30 m))) := by
  rw [buildCurve]
  simp only [List.filterMap_cons, Option.map_some, List.filterMap_nil, List.isEmpty_cons,
    Bool.false_eq_true, if_false]
  apply exceptMapM_ok
  intro m hm
  have hm2 : 1 ≤ m ∧ m < 31 := by
    have := List.mem_range'_1.mp hm
    omega
  obtain ⟨hm1, hm31⟩ := hm2
  interval_cases m <;>
    simp [specCurveVal, intermediateMaturities, knownMaturities, npInterp, specLerp] <;>
    norm_num

theorem specCurveVal_isSome (v1 v5 v10 v30 : ℝ) (m : ℕ) :
    (specCurveVal v1 v5 v10 v30 m).isSome := by
  rw [specCurveVal]
  split_ifs <;> rfl

/-- Claim C6 as amended: `calculate_volatility` raises exactly when the
input series is empty (`noData`) or the frequency is unrecognized
(`invalidFrequency`); when fewer than two log returns survive `dropna`
(in particular when the resampled series has fewer than two
observations) it instead returns `NaN` (`none`) without failing. -/
theorem c6_data_error_amended :
    (∀ (xs : List (Date × ℝ)) (frequency : String),
      (∃ e, calculate_volatility xs frequency = .error e) ↔
        (xs = [] ∨ ¬(frequency = "daily" ∨ frequency = "weekly" ∨ frequency = "monthly"))) ∧
    (∀ (xs : List (Date × ℝ)) (frequency : String), xs ≠ [] →
      (frequency = "daily" ∨ frequency = "weekly" ∨ frequency = "monthly") →
      (dropna (logReturnsRaw (codeResampled frequency xs))).length < 2 →
      calculate_volatility xs frequency = .ok none) := by
  constructor
  · intro xs f
    rw [calculate_volatility]
    by_cases h1 : xs.isEmpty
    · rw [if_pos h1]
      simp [List.isEmpty_iff.mp h1]
    · rw [if_neg h1]
      have h1e : ¬ xs = [] := fun h => h1 (by rw [h]; rfl)
      by_cases h2 : f = "daily" ∨ f = "weekly" ∨ f = "monthly"
      · rw [if_pos h2]
        simp [h1e, h2]
      · rw [if_neg h2]
        simp [h1e, h2]
  · intro xs f hne hf hlen
    rw [calculate_volatility, if_neg (fun h => hne (List.isEmpty_iff.mp h)), if_pos hf]
    rw [annualized, sampleStd, if_pos hlen]
    rfl

/-- Witness for the amended C6: a one-observation weekly series yields a
single resampled slot, no computable return, and the code returns `NaN`
rather than raising. -/
theorem c6_data_error_amended_witness :
    calculate_volatility [(⟨2024,1,5⟩, (2:ℝ))] "weekly" = .ok none := by
  apply c6_data_error_amended.2
  · simp
  · exact Or.inr (Or.inl rfl)
  · rw [show codeResampled "weekly" [(⟨2024,1,5⟩, (2:ℝ))] = [some 2] from rfl]
    rw [show logReturnsRaw [some (2:ℝ)] = [none] from rfl]
    rw [show dropna [(none : Option ℝ)] = [] from rfl]
    norm_num

/-- Counterexample to claim C6 as stated: a one-observation daily series
has fewer than two resampled observations, yet the estimator does not
fail — it returns `NaN` (`none`). -/
theorem c6_data_error_counterexample :
    calculate_volatility [(⟨2024,1,5⟩, (2:ℝ))] "daily" = .ok none := by
  rw [calculate_volatility]
  simp only [List.isEmpty_cons, Bool.false_eq_true, if_false, String.reduceEq, or_false, or_true,
    reduceIte, if_true, true_or]
  rw [show codeResampled "daily" [(⟨2024,1,5⟩, (2:ℝ))] = [some 2] from rfl]
  rw [annualized]
  rw [show dropna (logReturnsRaw [some (2:ℝ)]) = [] from rfl]
  rw [sampleStd, if_pos (by norm_num)]
  rfl

/-- Claim C2 as amended: when all four reference-instrument yields are
present, the built curve carries each known maturity's yield through
exactly as given (unrounded) and every other integer maturity of
`[1, 30]` gets the piecewise-linear interpolation of the two bracketing
known points rounded to two decimals; in particular looking the known
maturity 5 up in the curve returns its yield exactly.  (The restriction
to all-present is forced by the counterexample: with only a strict
subset of the instruments present, the construction raises instead of
building a curve.) -/
theorem c2_yield_curve_amended (v1 v5 v10 v30 : ℝ) :
    buildCurve (some v1) (some v5) (some v10) (some v30) =
      .ok ((List.range' 1 30).map (fun m => (m, specCurveVal v1 v5 v10 v30 m))) ∧
    ((List.range' 1 30).map (fun m => (m, specCurveVal v1 v5 v10 v30 m))).find?
        (fun p => p.1 = 5) = some (5, some v5) := by
  refine ⟨buildCurve_all_some v1 v5 v10 v30, ?_⟩
  rfl

/-- Counterexample to claim C2 as stated: with exactly one known yield
point (the 1-year instrument, yield 2), the claim asserts a curve that
carries the known point through; the code instead raises `ValueError`
when `intermediate_maturities.index(5)` fails, and no curve is built. -/
theorem c2_yield_curve_counterexample :
    buildCurve (some 2) none none none = .error .indexNotFound := rfl

/-- Claim C7 as amended: when all four instrument yields are present the
build completes with every integer maturity of `[1, 30]` carrying a
present value; when none is present it completes with every value
absent; in the remaining (strict-subset) cases it raises and no curve is
produced.  (The claim's "at least one known point" premise is weakened
to "all four present" by the counterexample.) -/
theorem c7_curve_population (y1 y5 y10 y30 : Option ℝ) :
    ((y1.isSome ∧ y5.isSome ∧ y10.isSome ∧ y30.isSome) →
      ∃ c, buildCurve y1 y5 y10 y30 = .ok c ∧
        c.map Prod.fst = List.range' 1 30 ∧ ∀ p ∈ c, p.2.isSome) ∧
    ((y1 = none ∧ y5 = none ∧ y10 = none ∧ y30 = none) →
      buildCurve y1 y5 y10 y30 =
        .ok ((List.range' 1 30).map (fun m => (m, none)))) ∧
    (¬(y1.isSome ∧ y5.isSome ∧ y10.isSome ∧ y30.isSome) →
      ¬(y1 = none ∧ y5 = none ∧ y10 = none ∧ y30 = none) →
      ∃ e, buildCurve y1 y5 y10 y30 = .error e) := by
  refine ⟨?_, ?_, ?_⟩
  · rintro ⟨h1, h2, h3, h4⟩
    obtain ⟨v1, rfl⟩ := Option.isSome_iff_exists.mp h1
    obtain ⟨v5, rfl⟩ := Option.isSome_iff_exists.mp h2
    obtain ⟨v10, rfl⟩ := Option.isSome_iff_exists.mp h3
    obtain ⟨v30, rfl⟩ := Option.isSome_iff_exists.mp h4
    refine ⟨_, buildCurve_all_some v1 v5 v10 v30, rfl, ?_⟩
    · intro p hp
      obtain ⟨m, _, hmp⟩ := List.mem_map.mp hp
      rw [← hmp]
      exact specCurveVal_isSome v1 v5 v10 v30 m
  · rintro ⟨rfl, rfl, rfl, rfl⟩
    rfl
  · intro hns hnn
    rcases y1 with _ | v1 <;> rcases y5 with _ | v5 <;>
      rcases y10 with _ | v10 <;> rcases y30 with _ | v30
    · exact absurd ⟨rfl, rfl, rfl, rfl⟩ hnn
    · exact ⟨.indexNotFound, rfl⟩
    · exact ⟨.indexNotFound, rfl⟩
    · exact ⟨.indexNotFound, rfl⟩
    · exact ⟨.indexNotFound, rfl⟩
    · exact ⟨.indexNotFound, rfl⟩
    · exact ⟨.indexNotFound, rfl⟩
    · exact ⟨.indexNotFound, rfl⟩
    · exact ⟨.indexNotFound, rfl⟩
    · exact ⟨.indexNotFound, rfl⟩
    · exact ⟨.indexNotFound, rfl⟩
    · exact ⟨.indexNotFound, rfl⟩
    · exact ⟨.indexNotFound, rfl⟩
    · exact ⟨.indexNotFound, rfl⟩
    · exact ⟨.indexNotFound, rfl⟩
    · exact absurd ⟨rfl, rfl, rfl, rfl⟩ hns

/-- Witness for the amended C7: with all four yields present the curve
exists, covers exactly the maturities 1 to 30, and every value is
present. -/
theorem c7_curve_population_witness :
    ∃ c, buildCurve (some 2) (some 3) (some 4) (some 5) = .ok c ∧
      c.map Prod.fst = List.range' 1 30 ∧ ∀ p ∈ c, p.2.isSome :=
  (c7_curve_population (some 2) (some 3) (some 4) (some 5)).1 ⟨rfl, rfl, rfl, rfl⟩

/-- Counterexample to claim C7 as stated: one known point (the 5-year
instrument) is present, yet the build does not complete with a populated
curve — it raises `ValueError` at maturity 1. -/
theorem c7_curve_population_counterexample :
    buildCurve none (some 3) none none = .error .indexNotFound := rfl

/-- First components of any successfully built curve are exactly the
maturities 1 to 30. -/
theorem buildCurve_ok_fst (y1 y5 y10 y30 : Option ℝ) (c : List (ℕ × Option ℝ))
    (h : buildCurve y1 y5 y10 y30 = .ok c) : c.map Prod.fst = List.range' 1 30 := by
  simp only [buildCurve] at h
  split_ifs at h with he
  · cases h
    rfl
  · refine exceptMapM_map_fst _ ?_ _ c h
    intro a p hp
    rcases hfind : (([(1, y1), (5, y5), (10, y10), (30, y30)] :
        List (ℕ × Option ℝ)).filterMap (fun q => q.2.map (fun v => (q.1, v)))).find?
        (fun q => q.1 = a) with _ | q
    · rw [hfind] at hp
      by_cases hm : a ∈ intermediateMaturities
      · rw [if_pos hm] at hp
        cases hp
        rfl
      · rw [if_neg hm] at hp
        cases hp
    · rw [hfind] at hp
      cases hp
      rfl

/-- Claim C8 as amended: looking up a maturity on a successfully built
curve raises the `KeyError` listing the available maturities 1 to 30
exactly when the requested maturity lies outside `[1, 30]`; when the
curve has no known points at all, an in-range lookup finds the label and
instead raises `TypeError` at the `None / 100` division, without the
maturity-list payload. -/
theorem c8_lookup_amended :
    (∀ (y1 y5 y10 y30 : Option ℝ) (c : List (ℕ × Option ℝ)),
        buildCurve y1 y5 y10 y30 = .ok c → ∀ t : ℤ,
        (riskFreeLookup c t = .error (.keyNotFound (List.range' 1 30)) ↔
          (t < 1 ∨ 30 < t))) ∧
    (∀ t : ℤ, 1 ≤ t → t ≤ 30 →
        riskFreeLookup ((List.range' 1 30).map (fun m => (m, (none : Option ℝ)))) t =
          .error .typeError) := by
  constructor
  · intro y1 y5 y10 y30 c hc t
    have hfst := buildCurve_ok_fst y1 y5 y10 y30 c hc
    rcases hfind : c.find? (fun p => (p.1 : ℤ) = t) with _ | p
    · have hval : riskFreeLookup c t = .error (.keyNotFound (c.map Prod.fst)) := by
        rw [riskFreeLookup, hfind]
      rw [hval, hfst]
      constructor
      · intro _
        by_contra hcon
        push_neg at hcon
        obtain ⟨ht1, ht30⟩ := hcon
        have hmem : t.toNat ∈ List.range' 1 30 := by
          rw [List.mem_range'_1]
          omega
        rw [← hfst] at hmem
        obtain ⟨p, hp, hpt⟩ := List.mem_map.mp hmem
        have hno := List.find?_eq_none.mp hfind p hp
        simp only [decide_eq_true_eq] at hno
        exact hno (by omega)
      · intro _
        rfl
    · obtain ⟨m, val⟩ := p
      have hmem := List.mem_of_find?_eq_some hfind
      have hpt : (m : ℤ) = t := by
        have hp2 := List.find?_some hfind
        simpa using hp2
      have hmr : m ∈ List.range' 1 30 := by
        rw [← hfst]
        exact List.mem_map.mpr ⟨(m, val), hmem, rfl⟩
      have hbounds := List.mem_range'_1.mp hmr
      have hiff : ¬(t < 1 ∨ 30 < t) := by omega
      rcases val with _ | v
      · have hval : riskFreeLookup c t = .error .typeError := by
          rw [riskFreeLookup, hfind]
        rw [hval]
        simp only [hiff, iff_false]
        intro heq
        cases heq
      · have hval : riskFreeLookup c t = .ok (v / 100) := by
          rw [riskFreeLookup, hfind]
        rw [hval]
        simp only [hiff, iff_false]
        intro heq
        cases heq
  · intro t h1 h30
    rcases hfind : ((List.range' 1 30).map (fun m => (m, (none : Option ℝ)))).find?
        (fun p => (p.1 : ℤ) = t) with _ | p
    · exfalso
      have hmem : (t.toNat, (none : Option ℝ)) ∈
          (List.range' 1 30).map (fun m => (m, (none : Option ℝ))) :=
        List.mem_map.mpr ⟨t.toNat, by rw [List.mem_range'_1]; omega, rfl⟩
      have hno := List.find?_eq_none.mp hfind _ hmem
      simp only [decide_eq_true_eq] at hno
      exact hno (by omega)
    · obtain ⟨m, val⟩ := p
      have hmem := List.mem_of_find?_eq_some hfind
      obtain ⟨m2, _, hpair⟩ := List.mem_map.mp hmem
      cases hpair
      rw [riskFreeLookup, hfind]

/-- Witness for the amended C8: requesting 40 years against a fully
built curve capped at 30 raises the `KeyError` listing maturities 1-30,
the spec's worked example. -/
theorem c8_lookup_amended_witness :
    riskFreeLookup ((List.range' 1 30).map (fun m => (m, specCurveVal 2 3 4 5 m))) 40 =
      .error (.keyNotFound (List.range' 1 30)) :=
  (c8_lookup_amended.1 (some 2) (some 3) (some 4) (some 5) _
    (buildCurve_all_some 2 3 4 5) 40).mpr (Or.inr (by norm_num))

/-- Counterexample to claim C8 as stated: with no known points at all,
looking up the in-range maturity 4 does not raise the maturity-listing
error — the label exists in the index (the index always holds 1 to 30)
and the pipeline instead fails with `TypeError` at `None / 100`. -/
theorem c8_lookup_counterexample :
    buildCurve none none none none =
      .ok ((List.range' 1 30).map (fun m => (m, (none : Option ℝ)))) ∧
    riskFreeLookup ((List.range' 1 30).map (fun m => (m, (none : Option ℝ)))) 4 =
      .error .typeError :=
  ⟨rfl, rfl⟩

/-- Claim C4 as amended: the pricer performs no domain validation and
never raises — every input, including `maturity_years ≤ 0` or
`volatility ≤ 0`, yields a returned value (possibly a non-finite one);
and for positive spot, strike and maturity and nonzero volatility the
returned value is exactly the Black-Scholes formula. -/
theorem c4_black_scholes_amended :
    (∀ S K T r sigma : ℝ, ∃ v, black_scholes S K T r sigma = .ok v) ∧
    (∀ S K T r sigma : ℝ, 0 < S → 0 < K → 0 < T → sigma ≠ 0 →
      black_scholes S K T r sigma = .ok (some
        (S * stdNormCdf ((Real.log (S / K) + (r + 0.5 * sigma ^ 2) * T) / (sigma * Real.sqrt T))
          - K * Real.exp (-r * T) *
            stdNormCdf ((Real.log (S / K) + (r + 0.5 * sigma ^ 2) * T) / (sigma * Real.sqrt T)
              - sigma * Real.sqrt T)))) := by
  constructor
  · intro S K T r sigma
    exact ⟨_, rfl⟩
  · intro S K T r sigma hS hK hT hs
    rw [black_scholes, if_neg]
    push_neg
    exact ⟨mul_ne_zero hs (ne_of_gt (Real.sqrt_pos.mpr hT)), div_pos hS hK⟩

/-- Witness for the amended C4 at a negative volatility: the pricer
still returns the formula value. -/
theorem c4_black_scholes_amended_witness :
    black_scholes 100 90 1 (5/100) (-(1/5)) = .ok (some
      ((100:ℝ) * stdNormCdf ((Real.log ((100:ℝ) / 90) + (5/100 + 0.5 * (-(1/5):ℝ) ^ 2) * 1) / (-(1/5) * Real.sqrt 1))
        - 90 * Real.exp (-(5/100) * 1) *
          stdNormCdf ((Real.log ((100:ℝ) / 90) + (5/100 + 0.5 * (-(1/5):ℝ) ^ 2) * 1) / (-(1/5) * Real.sqrt 1)
            - -(1/5) * Real.sqrt 1))) :=
  c4_black_scholes_amended.2 100 90 1 (5/100) (-(1/5))
    (by norm_num) (by norm_num) (by norm_num) (by norm_num)

/-- Counterexample to claim C4 as stated: at `volatility = -1/5 ≤ 0` the
pricer does not fail with any error — it returns a value. -/
theorem c4_black_scholes_counterexample :
    black_scholes 100 100 1 (5/100) (-(1/5)) = .ok (some
      ((100:ℝ) * stdNormCdf ((Real.log ((100:ℝ) / 100) + (5/100 + 0.5 * (-(1/5):ℝ) ^ 2) * 1) / (-(1/5) * Real.sqrt 1))
        - 100 * Real.exp (-(5/100) * 1) *
          stdNormCdf ((Real.log ((100:ℝ) / 100) + (5/100 + 0.5 * (-(1/5):ℝ) ^ 2) * 1) / (-(1/5) * Real.sqrt 1)
            - -(1/5) * Real.sqrt 1))) := by
  rw [black_scholes, if_neg]
  push_neg
  refine ⟨?_, by norm_num⟩
  rw [Real.sqrt_one]
  norm_num

/-- Claim C5: with every ticker failing, the aggregation produces an
empty table and a `NaN` average, and the pipeline continues into the
pricer (which returns `NaN`) instead of failing with any error.  This
contradicts the specification, which requires an
`InsufficientDataError`. -/
theorem c5_all_failed_nan_continues :
    volLoop [("A", .error .noData), ("B", .error .noData)] = [] ∧
    averageVolatility (volLoop [("A", .error .noData), ("B", .error .noData)]) = none ∧
    priceWithAverage 50 45 4 (1/100)
      (averageVolatility (volLoop [("A", .error .noData), ("B", .error .noData)])) =
      .ok none := by
  exact ⟨rfl, rfl, rfl⟩

/-- Claim C9 as amended: per-ticker failures do not abort the loop and
are only printed, not recorded in the result table; the rows are exactly
the successes in order, a ticker with no success is absent from the
table, and the average is the arithmetic mean of the successful
volatility percentages divided by 100. -/
theorem c9_aggregation_amended :
    (∀ (rs : List (String × Except PyErr (Option ℝ))),
      volLoop rs = rs.filterMap (fun p =>
        match p.2 with
        | .ok v => some (p.1, v)
        | .error _ => none) ∧
      volLoopLog rs = rs.filterMap (fun p =>
        match p.2 with
        | .ok _ => none
        | .error e => some (p.1, e))) ∧
    (∀ (rs : List (String × Except PyErr (Option ℝ))) (t : String),
      (∀ v, (t, Except.ok v) ∉ rs) → t ∉ (volLoop rs).map Prod.fst) ∧
    (∀ (rows : List (String × Option ℝ)),
      (rows.map Prod.snd).filterMap id ≠ [] →
      averageVolatility rows =
        some ((((rows.map Prod.snd).filterMap id).sum /
          (((rows.map Prod.snd).filterMap id).length : ℝ)) / 100)) := by
  refine ⟨?_, ?_, ?_⟩
  · intro rs
    induction rs with
    | nil => exact ⟨rfl, rfl⟩
    | cons p rest ih =>
      obtain ⟨t, v⟩ := p
      cases v with
      | ok v0 =>
        simp only [List.filterMap_cons, volLoop, volLoopLog]
        exact ⟨by rw [ih.1], by rw [ih.2]⟩
      | error e =>
        simp only [List.filterMap_cons, volLoop, volLoopLog]
        exact ⟨by rw [ih.1], by rw [ih.2]⟩
  · intro rs t hno
    induction rs with
    | nil => simp [volLoop]
    | cons p rest ih =>
      obtain ⟨t2, v⟩ := p
      have hno2 : ∀ v, (t, Except.ok v) ∉ rest := by
        intro v0 hmem
        exact hno v0 (List.mem_cons_of_mem _ hmem)
      cases v with
      | ok v0 =>
        rw [volLoop]
        simp only [List.map_cons, List.mem_cons]
        rintro (rfl | hmem)
        · exact hno v0 (List.mem_cons_self _ _)
        · exact ih hno2 hmem
      | error e =>
        rw [volLoop]
        exact ih hno2
  · intro rows hne
    rw [averageVolatility, pdMean]
    rw [if_neg (by simpa using hne)]
    rfl

/-- Witness for the amended C9: with ticker A succeeding at 30% and
ticker B failing, the average is A's volatility alone divided by 100. -/
theorem c9_aggregation_amended_witness :
    averageVolatility (volLoop [("A", .ok (some 30)), ("B", .error .noData)]) =
      some (30 / 100) := by
  have h := c9_aggregation_amended.2.2 [("A", some (30:ℝ))] (by simp)
  rw [show volLoop [("A", .ok (some (30:ℝ))), ("B", .error .noData)] = [("A", some 30)] from rfl,
    h, show (([("A", some (30:ℝ))].map Prod.snd).filterMap id) = [(30:ℝ)] from rfl]
  norm_num [List.sum_cons, List.sum_nil]

/-- Counterexample to claim C9 as stated: with tickers A (succeeding)
and B (failing), the result table contains only A's row; B appears in no
component of the result — there is no failure list in the result at all,
failures are only printed to the console. -/
theorem c9_aggregation_counterexample :
    volLoop [("A", .ok (some 30)), ("B", .error .noData)] = [("A", some 30)] ∧
    "B" ∉ (volLoop [("A", .ok (some 30)), ("B", .error .noData)]).map Prod.fst := by
  refine ⟨rfl, ?_⟩
  rw [show (volLoop [("A", .ok (some 30)), ("B", .error .noData)]).map Prod.fst = ["A"] from rfl]
  simp

